import Mathlib

/-!
Shallow embedding of the pygb CPU core (src/cpu.py) and proofs checking the
specification's claims against it.

Modelling conventions, used consistently below:

* Python integers are unbounded, so machine values are `Nat` (or `Int` where
  the source can drive a value negative, namely `SP`).
* Python's bitwise operations on nonnegative integers coincide with
  `Nat.land`/`Nat.lor`/`Nat.xor`/`Nat.shiftLeft`/`Nat.shiftRight`; constant
  masks are sometimes rendered arithmetically (`x & 0xFF` as `x % 256`,
  `(x & 0xFF00) >> 8` as `x / 256 % 256`), which is equal for every natural.
  For a possibly negative `val`, Python's `val >> 8 & 0xFF` / `val & 0xFF`
  equal the base-256 digits of `val mod 2^16` (two's complement), rendered
  through `Int.emod`.
* The Python flag cells hold `True`/`False`/`0`/`1`/`None` (several handlers
  assign `None` at `FIXME` sites).  Every read of a flag in the program
  (`or 0` in the `AF` getter, `int(...)`, `bool(...)`, `not`, `if`) depends
  only on the value's truthiness, so flags are embedded as `Bool`
  (`None`/`0`/`False` ↦ `false`).
* `ram` is the 65,536-cell Python list, embedded as a total function
  `Nat → Nat`.  Python list indexing accepts a negative index `i`
  (`-65536 ≤ i < 0`) meaning cell `65536 + i`; `pyIdx` below renders this and
  agrees with Python on every index the embedded opcodes can produce.
* `print` calls (the serial-console tap in `opE0`) and `debug_str` only
  produce console/crash-dump text and are not part of the CPU state.
-/

namespace PyGB

/-- Register names, mirroring the `Reg` enum (src/cpu.py lines 44-62).
`F` appears in the enum but no opcode ever dispatches on it (the `CPU` class
has no `F` attribute; reading it would raise `AttributeError`). -/
inductive Reg where
  | A | B | C | D | E | F | H | L
  | BC | DE | AF | HL
  | SP | PC
  | MEM_AT_HL
deriving DecidableEq, Repr

/-- CPU state, mirroring `CPU.__init__` (src/cpu.py lines 80-108).  Field
defaults are the power-on values the constructor assigns.  `cart`/`rom` and
the ROM copy into `ram` are left to the individual test states, since every
claim below fixes its own memory contents.  `debug_str` is omitted (it only
feeds the crash dump). -/
structure CPU where
  A : Nat := 0x01
  B : Nat := 0x00
  C : Nat := 0x13
  D : Nat := 0x00
  E : Nat := 0xD8
  H : Nat := 0x01
  L : Nat := 0x4D
  SP : Int := 0xFFFE
  PC : Nat := 0x0000
  FLAG_Z : Bool := true
  FLAG_N : Bool := false
  FLAG_H : Bool := true
  FLAG_C : Bool := true
  ram : Nat → Nat := fun _ => 0
  interrupts : Bool := true
  halt : Bool := false
  stop : Bool := false
  nopslide : Nat := 0

/-- Python list indexing into the 65,536-cell `ram`: a negative index `i`
(with `-65536 ≤ i < 0`) addresses cell `65536 + i`.  `Int.emod` agrees with
this on every index the embedded code produces (all indices lie in
`[-65536, 65536)`). -/
def pyIdx (i : Int) : Nat := (i % 65536).toNat

/-- Read `self.ram[i]` where `i` may be a negative Python index. -/
def ramGet (c : CPU) (i : Int) : Nat := c.ram (pyIdx i)

/-- Write `self.ram[i] = v` where `i` may be a negative Python index. -/
def ramSet (c : CPU) (i : Int) (v : Nat) : CPU :=
  { c with ram := fun a => if a = pyIdx i then v else c.ram a }

/-- The flag nibble of the `AF` getter (src/cpu.py lines 302-308):
`(Z or 0) << 7 | (N or 0) << 6 | (H or 0) << 5 | (C or 0) << 4`.
The four summands occupy disjoint bits, so the Python `|` is `+`. -/
def flagsByte (c : CPU) : Nat :=
  (cond c.FLAG_Z 0x80 0) + (cond c.FLAG_N 0x40 0) +
  (cond c.FLAG_H 0x20 0) + (cond c.FLAG_C 0x10 0)

/-- `getattr(self, reg.value)` for each register name.  Pair getters follow
src/cpu.py lines 290-377.  `AF = A << 8 | flags` is written `A * 256 + flags`
(disjoint bits).  `SP` is only ever read by opcodes outside this embedding
(`op08`, `op39`, `opE8`); its clause is unused below. -/
def getReg (c : CPU) (r : Reg) : Nat :=
  match r with
  | .A => c.A
  | .B => c.B
  | .C => c.C
  | .D => c.D
  | .E => c.E
  | .F => 0
  | .H => c.H
  | .L => c.L
  | .AF => c.A * 256 + flagsByte c
  | .BC => c.B <<< 8 ||| c.C
  | .DE => c.D <<< 8 ||| c.E
  | .HL => c.H <<< 8 ||| c.L
  | .SP => c.SP.toNat
  | .PC => c.PC
  | .MEM_AT_HL => c.ram (c.H <<< 8 ||| c.L)

/-- `setattr(self, reg.value, val)` for each register name (setters at
src/cpu.py lines 310-381).  Python assigns 8-bit registers and `PC` the raw
value (every value the embedded opcodes store there is nonnegative, so
`Int.toNat` is exact).  The pair setters compute `val >> 8 & 0xFF` and
`val & 0xFF`, rendered through `val mod 2^16` (equal for every integer under
two's complement).  The `AF` setter derives each flag from `bool(val & bit)`,
rendered as a base-2 digit test.  Assigning `F` would create a fresh
attribute never read again, so it is a no-op here. -/
def setReg (c : CPU) (r : Reg) (v : Int) : CPU :=
  match r with
  | .A => { c with A := v.toNat }
  | .B => { c with B := v.toNat }
  | .C => { c with C := v.toNat }
  | .D => { c with D := v.toNat }
  | .E => { c with E := v.toNat }
  | .F => c
  | .H => { c with H := v.toNat }
  | .L => { c with L := v.toNat }
  | .AF =>
    let w := (v % 65536).toNat
    { c with A := w >>> 8 % 256,
             FLAG_Z := decide (w / 128 % 2 = 1),
             FLAG_N := decide (w / 64 % 2 = 1),
             FLAG_H := decide (w / 32 % 2 = 1),
             FLAG_C := decide (w / 16 % 2 = 1) }
  | .BC =>
    let w := (v % 65536).toNat
    { c with B := w >>> 8 % 256, C := w % 256 }
  | .DE =>
    let w := (v % 65536).toNat
    { c with D := w >>> 8 % 256, E := w % 256 }
  | .HL =>
    let w := (v % 65536).toNat
    { c with H := w >>> 8 % 256, L := w % 256 }
  | .SP => { c with SP := v }
  | .PC => { c with PC := v.toNat }
  | .MEM_AT_HL => ramSet c (c.H <<< 8 ||| c.L) v.toNat

/-- `CPU._ld_val_to_reg` (src/cpu.py 409-410): `setattr(self, reg.value, val)`. -/
def _ld_val_to_reg (c : CPU) (v : Int) (r : Reg) : CPU := setReg c r v

/-- `CPU._ld_reg_from_reg` (src/cpu.py 423-424): put `r2` into `r1`. -/
def _ld_reg_from_reg (c : CPU) (r1 r2 : Reg) : CPU := setReg c r1 (getReg c r2)

/-- `CPU._ld_val_to_a` (src/cpu.py 504-505): `self.A = val`. -/
def _ld_val_to_a (c : CPU) (v : Nat) : CPU := { c with A := v }

/-- `CPU._ld_a_to_mem` (src/cpu.py 514-515): `self.ram[val] = self.A`. -/
def _ld_a_to_mem (c : CPU) (v : Nat) : CPU := ramSet c v c.A

/-- `CPU.op36`, `LD [HL],n` (src/cpu.py 497-499): `self.ram[self.HL] = n`. -/
def op36 (c : CPU) (n : Nat) : CPU := ramSet c (getReg c .HL) n

/-- `CPU.op3A`, `LD A,[HL-]` (src/cpu.py 537-540). -/
def op3A (c : CPU) : CPU :=
  let c1 := { c with A := c.ram (getReg c .HL) }
  setReg c1 .HL ((getReg c1 .HL : Int) - 1)

/-- `CPU.op32`, `LD [HL-],A` (src/cpu.py 546-549). -/
def op32 (c : CPU) : CPU :=
  let c1 := ramSet c (getReg c .HL) c.A
  setReg c1 .HL ((getReg c1 .HL : Int) - 1)

/-- `CPU.op2A`, `LD A,[HL+]` (src/cpu.py 555-558). -/
def op2A (c : CPU) : CPU :=
  let c1 := { c with A := c.ram (getReg c .HL) }
  setReg c1 .HL ((getReg c1 .HL : Int) + 1)

/-- `CPU.op22`, `LD [HL+],A` (src/cpu.py 564-567). -/
def op22 (c : CPU) : CPU :=
  let c1 := ramSet c (getReg c .HL) c.A
  setReg c1 .HL ((getReg c1 .HL : Int) + 1)

/-- `CPU.opE0`, `LDH [n],A` (src/cpu.py 571-576):
`self.ram[0xFF00 + val] = self.A`.  The `val == 0x01` branch only prints the
serial-console character and changes no CPU state. -/
def opE0 (c : CPU) (v : Nat) : CPU := ramSet c (0xFF00 + v) c.A

/-- `CPU.opF0`, `LDH A,[n]` (src/cpu.py 580-582). -/
def opF0 (c : CPU) (v : Nat) : CPU := { c with A := c.ram (0xFF00 + v) }

/-- `CPU.opE2`, `LD [C],A` (src/cpu.py 529-531). -/
def opE2 (c : CPU) : CPU := ramSet c (0xFF00 + c.C) c.A

/-- `CPU.opF2`, `LD A,[C]` (src/cpu.py 523-525). -/
def opF2 (c : CPU) : CPU := { c with A := c.ram (0xFF00 + c.C) }

/-- `CPU._and` (src/cpu.py 714-719): `A &= val`, `Z = int(A == 0)`, `N = 0`,
`H = 1`, `C = 0`. -/
def _and (c : CPU) (v : Nat) : CPU :=
  let a := c.A &&& v
  { c with A := a, FLAG_Z := a == 0, FLAG_N := false, FLAG_H := true,
           FLAG_C := false }

/-- `CPU._or` (src/cpu.py 733-738): `A |= val`, `Z`, `N = H = C = 0`. -/
def _or (c : CPU) (v : Nat) : CPU :=
  let a := c.A ||| v
  { c with A := a, FLAG_Z := a == 0, FLAG_N := false, FLAG_H := false,
           FLAG_C := false }

/-- `CPU._xor` (src/cpu.py 752-768): `A ^= val`, `Z`, `N = H = C = 0`. -/
def _xor (c : CPU) (v : Nat) : CPU :=
  let a := c.A ^^^ v
  { c with A := a, FLAG_Z := a == 0, FLAG_N := false, FLAG_H := false,
           FLAG_C := false }

/-- `CPU._cp` (src/cpu.py 783-787): compare A with n; `FLAG_H = None`
(a `FIXME` site), which reads as falsy. -/
def _cp (c : CPU) (n : Nat) : CPU :=
  { c with FLAG_Z := c.A == n, FLAG_N := true, FLAG_H := false,
           FLAG_C := decide (c.A < n) }

/-- `CPU.opE6`, `AND n` (src/cpu.py 729): `self._and(self.ram[n])` — the
immediate byte is used as a RAM index, exactly as in the source. -/
def opE6 (c : CPU) (n : Nat) : CPU := _and c (c.ram n)

/-- `CPU.opF6`, `OR n` (src/cpu.py 748): `self._or(self.ram[n])`. -/
def opF6 (c : CPU) (n : Nat) : CPU := _or c (c.ram n)

/-- `CPU.opEE`, `XOR n` (src/cpu.py 778): `self._xor(self.ram[n])`. -/
def opEE (c : CPU) (n : Nat) : CPU := _xor c (c.ram n)

/-- `CPU._push16` (src/cpu.py 1653-1665): `ram[SP-1] = (val & 0xFF00) >> 8`,
`ram[SP] = val & 0xFF`, `SP -= 2`.  The masks are rendered `val / 256 % 256`
and `val % 256` (equal for every natural `val`). -/
def _push16 (c : CPU) (r : Reg) : CPU :=
  let val := getReg c r
  let c1 := ramSet c (c.SP - 1) (val / 256 % 256)
  let c2 := ramSet c1 c1.SP (val % 256)
  { c2 with SP := c2.SP - 2 }

/-- `CPU._pop16` (src/cpu.py 1668-1672):
`val = (ram[SP+1] << 8) | ram[SP+2]`, assign to `reg`, `SP += 2`. -/
def _pop16 (c : CPU) (r : Reg) : CPU :=
  let val := ramGet c (c.SP + 1) <<< 8 ||| ramGet c (c.SP + 2)
  let c1 := setReg c r (val : Int)
  { c1 with SP := c1.SP + 2 }

/-- `CPU._rlc` (src/cpu.py 1083-1090): carry from bit 7, shift left, store
masked; `Z` from the unmasked shifted value. -/
def _rlc (c : CPU) (r : Reg) : CPU :=
  let val := getReg c r
  let val2 := val <<< 1
  let c1 := setReg { c with FLAG_C := val &&& 0x80 != 0 } r ((val2 &&& 0xFF : Nat) : Int)
  { c1 with FLAG_N := false, FLAG_H := false, FLAG_Z := val2 == 0 }

/-- `CPU._rl` (src/cpu.py 1094-1109): identical body to `_rlc` in the source
(the old carry is never rotated in). -/
def _rl (c : CPU) (r : Reg) : CPU :=
  let val := getReg c r
  let val2 := val <<< 1
  let c1 := setReg { c with FLAG_C := val &&& 0x80 != 0 } r ((val2 &&& 0xFF : Nat) : Int)
  { c1 with FLAG_N := false, FLAG_H := false, FLAG_Z := val2 == 0 }

/-- `CPU._rrc` (src/cpu.py 1113-1120): carry from bit 0, shift right, store. -/
def _rrc (c : CPU) (r : Reg) : CPU :=
  let val := getReg c r
  let val2 := val >>> 1
  let c1 := setReg { c with FLAG_C := val &&& 0x1 != 0 } r (val2 : Int)
  { c1 with FLAG_N := false, FLAG_H := false, FLAG_Z := val2 == 0 }

/-- `CPU._rr` (src/cpu.py 1124-1131): identical body to `_rrc` in the source. -/
def _rr (c : CPU) (r : Reg) : CPU :=
  let val := getReg c r
  let val2 := val >>> 1
  let c1 := setReg { c with FLAG_C := val &&& 0x1 != 0 } r (val2 : Int)
  { c1 with FLAG_N := false, FLAG_H := false, FLAG_Z := val2 == 0 }

/-- `CPU._sla` (src/cpu.py 1135-1142): carry from bit 7, `val <<= 1`, then
`setattr(self, reg.value, val)` — the shifted value is stored WITHOUT a
`& 0xFF` mask, so a register can leave 8-bit range. -/
def _sla (c : CPU) (r : Reg) : CPU :=
  let val := getReg c r
  let val2 := val <<< 1
  let c1 := setReg { c with FLAG_C := val &&& 0x80 != 0 } r (val2 : Int)
  { c1 with FLAG_N := false, FLAG_H := false, FLAG_Z := val2 == 0 }

/-- `CPU._sra` (src/cpu.py 1146-1155): carry from bit 0, shift right,
replicate bit 6 into bit 7. -/
def _sra (c : CPU) (r : Reg) : CPU :=
  let val := getReg c r
  let val2 := val >>> 1
  let val3 := if val2 &&& 0x40 != 0 then val2 ||| 0x80 else val2
  let c1 := setReg { c with FLAG_C := val &&& 0x1 != 0 } r (val3 : Int)
  { c1 with FLAG_N := false, FLAG_H := false, FLAG_Z := val3 == 0 }

/-- `CPU._srl` (src/cpu.py 1159-1167): shift right, clear bit 7. -/
def _srl (c : CPU) (r : Reg) : CPU :=
  let val := getReg c r
  let val2 := val >>> 1 &&& 0x7F
  let c1 := setReg { c with FLAG_C := val &&& 0x1 != 0 } r (val2 : Int)
  { c1 with FLAG_N := false, FLAG_H := false, FLAG_Z := val2 == 0 }

/-- `CPU._swap` (src/cpu.py 895-900): exchange nibbles; `Z` is computed from
a read-back of the register after the store. -/
def _swap (c : CPU) (r : Reg) : CPU :=
  let val := getReg c r
  let c1 := setReg c r ((((val &&& 0xF0) >>> 4) ||| ((val &&& 0x0F) <<< 4) : Nat) : Int)
  { c1 with FLAG_Z := getReg c1 r == 0, FLAG_N := false, FLAG_H := false,
            FLAG_C := false }

/-- `CPU._bit` (src/cpu.py 1174-1187):
`FLAG_Z = bool(getattr(self, reg.value) & (0x1 << bit))`, `N = 0`, `H = 1`;
`FLAG_C` is not touched. -/
def _bit (c : CPU) (r : Reg) (b : Nat) : CPU :=
  { c with FLAG_Z := getReg c r &&& (0x1 <<< b) != 0, FLAG_N := false,
           FLAG_H := true }

/-- `CPU._set` (src/cpu.py 1191-1199): set bit `b` of the register. -/
def _set (c : CPU) (r : Reg) (b : Nat) : CPU :=
  setReg c r ((getReg c r ||| (0x01 <<< b) : Nat) : Int)

/-- `CPU._res` (src/cpu.py 1203-1211): clear bit `b` of the register. -/
def _res (c : CPU) (r : Reg) (b : Nat) : CPU :=
  setReg c r ((getReg c r &&& ((0x01 <<< b) ^^^ 0xFF) : Nat) : Int)

/-- `CPU.op76`, `HALT` (src/cpu.py 973-975). -/
def op76 (c : CPU) : CPU := { c with halt := true }

/-- `CPU.opC3`, `JP nn` (src/cpu.py 1494-1496). -/
def opC3 (c : CPU) (nn : Nat) : CPU := { c with PC := nn }

/-- `CPU.opE9`, `JP [HL]` (src/cpu.py 1523-1525):
`self.PC = self.ram[self.HL]` — the byte AT address HL, not HL itself. -/
def opE9 (c : CPU) : CPU := { c with PC := c.ram (getReg c .HL) }

/-- Operand order of the generated CB table (src/cpu.py 1213-1230, 1232-1487):
column `k` of each row is `["B","C","D","E","H","L","[HL]","A"][k]`. -/
def cbReg (k : Nat) : Reg :=
  match k with
  | 0 => .B | 1 => .C | 2 => .D | 3 => .E | 4 => .H | 5 => .L
  | 6 => .MEM_AT_HL | _ => .A

/-- The 256-entry CB-prefixed dispatch table `cb_ops` (src/cpu.py 1232-1487):
entries `0x00`-`0x3F` are the eight shift/rotate rows, entries `0x40`-`0xFF`
are `BIT`/`RES`/`SET` with bit index `n / 8 % 8`.  (All entries carry cycle
count 8 in the source, including the `[HL]` forms.) -/
def cbExec (c : CPU) (n : Nat) : CPU :=
  let r := cbReg (n % 8)
  if n < 0x40 then
    match n / 8 with
    | 0 => _rlc c r
    | 1 => _rrc c r
    | 2 => _rl c r
    | 3 => _rr c r
    | 4 => _sla c r
    | 5 => _sra c r
    | 6 => _swap c r
    | _ => _srl c r
  else
    let b := n / 8 % 8
    match n / 0x40 with
    | 1 => _bit c r b
    | 2 => _res c r b
    | _ => _set c r b

/-- The synthesized boot image (src/cpu.py 17-41): the `IOError` fallback
taken when no `boot.gb` file exists — 22 program bytes, zero padding up to
offset 0xFE, then `LDH [0x50],A` to hand off.  The source asserts its length
is exactly 0x100. -/
def BOOT : List Nat :=
  [0x31, 0xFE, 0xFF,
   0x3E, 0x01,
   0xCB, 0x7F,
   0x37,
   0x3E, 0x01,
   0x06, 0x00,
   0x0E, 0x13,
   0x16, 0x00,
   0x1E, 0xD8,
   0x26, 0x01,
   0x2E, 0x4D]
  ++ List.replicate (0xFE - 22) 0
  ++ [0xE0, 0x50]

set_option maxRecDepth 4096 in
theorem BOOT_length : BOOT.length = 0x100 := by
  rw [BOOT]
  rfl

/-- Operand-width tag of the `opcode` decorator (src/cpu.py 69-75, 261-281):
`"B"` unsigned imm8, `"b"` signed imm8, `"H"` little-endian imm16. -/
inductive ArgKind where
  | noArg | immB | immSB | immH
deriving DecidableEq

/-- The primary dispatch table `ops`: operand tag, cycle count and handler
for each opcode this embedding transcribes from src/cpu.py.  Opcodes not
listed here (arithmetic on A, DAA, relative jumps, calls/returns, the
reserved `ERR` slots, ...) exist in the source but are outside this
embedding; `tick` reports them as `notModelled` and no theorem below
executes one. -/
def primTab (n : Nat) : Option (ArgKind × Nat × (CPU → Int → CPU)) :=
  match n with
  | 0x01 => some (.immH, 12, fun c p => _ld_val_to_reg c p .BC)
  | 0x11 => some (.immH, 12, fun c p => _ld_val_to_reg c p .DE)
  | 0x21 => some (.immH, 12, fun c p => _ld_val_to_reg c p .HL)
  | 0x31 => some (.immH, 12, fun c p => _ld_val_to_reg c p .SP)
  | 0x06 => some (.immB, 8, fun c p => _ld_val_to_reg c p .B)
  | 0x0E => some (.immB, 8, fun c p => _ld_val_to_reg c p .C)
  | 0x16 => some (.immB, 8, fun c p => _ld_val_to_reg c p .D)
  | 0x1E => some (.immB, 8, fun c p => _ld_val_to_reg c p .E)
  | 0x26 => some (.immB, 8, fun c p => _ld_val_to_reg c p .H)
  | 0x2E => some (.immB, 8, fun c p => _ld_val_to_reg c p .L)
  | 0x3E => some (.immB, 8, fun c p => _ld_val_to_a c p.toNat)
  | 0x02 => some (.noArg, 8, fun c _ => _ld_a_to_mem c (getReg c .BC))
  -- src/cpu.py 518: `LD [DE],A` stores through BC, exactly as in the source
  | 0x12 => some (.noArg, 8, fun c _ => _ld_a_to_mem c (getReg c .BC))
  | 0xEA => some (.immH, 16, fun c p => _ld_a_to_mem c p.toNat)
  | 0x0A => some (.noArg, 8, fun c _ => _ld_val_to_a c (c.ram (getReg c .BC)))
  | 0x1A => some (.noArg, 8, fun c _ => _ld_val_to_a c (c.ram (getReg c .DE)))
  | 0xFA => some (.immH, 16, fun c p => _ld_val_to_a c (c.ram p.toNat))
  | 0xF2 => some (.noArg, 8, fun c _ => opF2 c)
  | 0xE2 => some (.noArg, 8, fun c _ => opE2 c)
  | 0xE0 => some (.immB, 8, fun c p => opE0 c p.toNat)
  | 0xF0 => some (.immB, 8, fun c p => opF0 c p.toNat)
  | 0x36 => some (.immB, 12, fun c p => op36 c p.toNat)
  | 0x22 => some (.noArg, 8, fun c _ => op22 c)
  | 0x32 => some (.noArg, 8, fun c _ => op32 c)
  | 0x2A => some (.noArg, 8, fun c _ => op2A c)
  | 0x3A => some (.noArg, 8, fun c _ => op3A c)
  | 0xF9 => some (.noArg, 8, fun c _ => _ld_reg_from_reg c .SP .HL)
  -- the LD r1,r2 block (src/cpu.py 426-495)
  | 0x40 => some (.noArg, 4, fun c _ => _ld_reg_from_reg c .B .B)
  | 0x41 => some (.noArg, 4, fun c _ => _ld_reg_from_reg c .B .C)
  | 0x42 => some (.noArg, 4, fun c _ => _ld_reg_from_reg c .B .D)
  | 0x43 => some (.noArg, 4, fun c _ => _ld_reg_from_reg c .B .E)
  | 0x44 => some (.noArg, 4, fun c _ => _ld_reg_from_reg c .B .H)
  | 0x45 => some (.noArg, 4, fun c _ => _ld_reg_from_reg c .B .L)
  | 0x46 => some (.noArg, 8, fun c _ => _ld_reg_from_reg c .B .MEM_AT_HL)
  | 0x47 => some (.noArg, 4, fun c _ => _ld_reg_from_reg c .B .A)
  | 0x48 => some (.noArg, 4, fun c _ => _ld_reg_from_reg c .C .B)
  | 0x49 => some (.noArg, 4, fun c _ => _ld_reg_from_reg c .C .C)
  | 0x4A => some (.noArg, 4, fun c _ => _ld_reg_from_reg c .C .D)
  | 0x4B => some (.noArg, 4, fun c _ => _ld_reg_from_reg c .C .E)
  | 0x4C => some (.noArg, 4, fun c _ => _ld_reg_from_reg c .C .H)
  | 0x4D => some (.noArg, 4, fun c _ => _ld_reg_from_reg c .C .L)
  | 0x4E => some (.noArg, 8, fun c _ => _ld_reg_from_reg c .C .MEM_AT_HL)
  | 0x4F => some (.noArg, 4, fun c _ => _ld_reg_from_reg c .C .A)
  | 0x50 => some (.noArg, 4, fun c _ => _ld_reg_from_reg c .D .B)
  | 0x51 => some (.noArg, 4, fun c _ => _ld_reg_from_reg c .D .C)
  | 0x52 => some (.noArg, 4, fun c _ => _ld_reg_from_reg c .D .D)
  | 0x53 => some (.noArg, 4, fun c _ => _ld_reg_from_reg c .D .E)
  | 0x54 => some (.noArg, 4, fun c _ => _ld_reg_from_reg c .D .H)
  | 0x55 => some (.noArg, 4, fun c _ => _ld_reg_from_reg c .D .L)
  | 0x56 => some (.noArg, 8, fun c _ => _ld_reg_from_reg c .D .MEM_AT_HL)
  | 0x57 => some (.noArg, 4, fun c _ => _ld_reg_from_reg c .D .A)
  | 0x58 => some (.noArg, 4, fun c _ => _ld_reg_from_reg c .E .B)
  | 0x59 => some (.noArg, 4, fun c _ => _ld_reg_from_reg c .E .C)
  | 0x5A => some (.noArg, 4, fun c _ => _ld_reg_from_reg c .E .D)
  | 0x5B => some (.noArg, 4, fun c _ => _ld_reg_from_reg c .E .E)
  | 0x5C => some (.noArg, 4, fun c _ => _ld_reg_from_reg c .E .H)
  | 0x5D => some (.noArg, 4, fun c _ => _ld_reg_from_reg c .E .L)
  | 0x5E => some (.noArg, 8, fun c _ => _ld_reg_from_reg c .E .MEM_AT_HL)
  | 0x5F => some (.noArg, 4, fun c _ => _ld_reg_from_reg c .E .A)
  | 0x60 => some (.noArg, 4, fun c _ => _ld_reg_from_reg c .H .B)
  | 0x61 => some (.noArg, 4, fun c _ => _ld_reg_from_reg c .H .C)
  | 0x62 => some (.noArg, 4, fun c _ => _ld_reg_from_reg c .H .D)
  | 0x63 => some (.noArg, 4, fun c _ => _ld_reg_from_reg c .H .E)
  | 0x64 => some (.noArg, 4, fun c _ => _ld_reg_from_reg c .H .H)
  | 0x65 => some (.noArg, 4, fun c _ => _ld_reg_from_reg c .H .L)
  | 0x66 => some (.noArg, 8, fun c _ => _ld_reg_from_reg c .H .MEM_AT_HL)
  | 0x67 => some (.noArg, 4, fun c _ => _ld_reg_from_reg c .H .A)
  | 0x68 => some (.noArg, 4, fun c _ => _ld_reg_from_reg c .L .B)
  | 0x69 => some (.noArg, 4, fun c _ => _ld_reg_from_reg c .L .C)
  | 0x6A => some (.noArg, 4, fun c _ => _ld_reg_from_reg c .L .D)
  | 0x6B => some (.noArg, 4, fun c _ => _ld_reg_from_reg c .L .E)
  | 0x6C => some (.noArg, 4, fun c _ => _ld_reg_from_reg c .L .H)
  | 0x6D => some (.noArg, 4, fun c _ => _ld_reg_from_reg c .L .L)
  | 0x6E => some (.noArg, 8, fun c _ => _ld_reg_from_reg c .L .MEM_AT_HL)
  | 0x6F => some (.noArg, 4, fun c _ => _ld_reg_from_reg c .L .A)
  | 0x70 => some (.noArg, 8, fun c _ => _ld_reg_from_reg c .MEM_AT_HL .B)
  | 0x71 => some (.noArg, 8, fun c _ => _ld_reg_from_reg c .MEM_AT_HL .C)
  | 0x72 => some (.noArg, 8, fun c _ => _ld_reg_from_reg c .MEM_AT_HL .D)
  | 0x73 => some (.noArg, 8, fun c _ => _ld_reg_from_reg c .MEM_AT_HL .E)
  | 0x74 => some (.noArg, 8, fun c _ => _ld_reg_from_reg c .MEM_AT_HL .H)
  | 0x75 => some (.noArg, 8, fun c _ => _ld_reg_from_reg c .MEM_AT_HL .L)
  | 0x76 => some (.noArg, 4, fun c _ => op76 c)
  -- src/cpu.py 495: `LD [HL],A` copies register L, exactly as in the source
  | 0x77 => some (.noArg, 8, fun c _ => _ld_reg_from_reg c .MEM_AT_HL .L)
  | 0x78 => some (.noArg, 4, fun c _ => _ld_reg_from_reg c .A .B)
  | 0x79 => some (.noArg, 4, fun c _ => _ld_reg_from_reg c .A .C)
  | 0x7A => some (.noArg, 4, fun c _ => _ld_reg_from_reg c .A .D)
  | 0x7B => some (.noArg, 4, fun c _ => _ld_reg_from_reg c .A .E)
  | 0x7C => some (.noArg, 4, fun c _ => _ld_reg_from_reg c .A .H)
  | 0x7D => some (.noArg, 4, fun c _ => _ld_reg_from_reg c .A .L)
  | 0x7E => some (.noArg, 8, fun c _ => _ld_reg_from_reg c .A .MEM_AT_HL)
  | 0x7F => some (.noArg, 4, fun c _ => _ld_reg_from_reg c .A .A)
  -- 8-bit logic on A (src/cpu.py 721-797)
  | 0xA0 => some (.noArg, 4, fun c _ => _and c c.B)
  | 0xA1 => some (.noArg, 4, fun c _ => _and c c.C)
  | 0xA2 => some (.noArg, 4, fun c _ => _and c c.D)
  | 0xA3 => some (.noArg, 4, fun c _ => _and c c.E)
  | 0xA4 => some (.noArg, 4, fun c _ => _and c c.H)
  | 0xA5 => some (.noArg, 4, fun c _ => _and c c.L)
  | 0xA6 => some (.noArg, 8, fun c _ => _and c (c.ram (getReg c .HL)))
  | 0xA7 => some (.noArg, 4, fun c _ => _and c c.A)
  | 0xA8 => some (.noArg, 4, fun c _ => _xor c c.B)
  | 0xA9 => some (.noArg, 4, fun c _ => _xor c c.C)
  | 0xAA => some (.noArg, 4, fun c _ => _xor c c.D)
  | 0xAB => some (.noArg, 4, fun c _ => _xor c c.E)
  | 0xAC => some (.noArg, 4, fun c _ => _xor c c.H)
  | 0xAD => some (.noArg, 4, fun c _ => _xor c c.L)
  | 0xAE => some (.noArg, 8, fun c _ => _xor c (c.ram (getReg c .HL)))
  | 0xAF => some (.noArg, 4, fun c _ => _xor c c.A)
  | 0xB0 => some (.noArg, 4, fun c _ => _or c c.B)
  | 0xB1 => some (.noArg, 4, fun c _ => _or c c.C)
  | 0xB2 => some (.noArg, 4, fun c _ => _or c c.D)
  | 0xB3 => some (.noArg, 4, fun c _ => _or c c.E)
  | 0xB4 => some (.noArg, 4, fun c _ => _or c c.H)
  | 0xB5 => some (.noArg, 4, fun c _ => _or c c.L)
  | 0xB6 => some (.noArg, 8, fun c _ => _or c (c.ram (getReg c .HL)))
  | 0xB7 => some (.noArg, 4, fun c _ => _or c c.A)
  | 0xB8 => some (.noArg, 4, fun c _ => _cp c c.B)
  | 0xB9 => some (.noArg, 4, fun c _ => _cp c c.C)
  | 0xBA => some (.noArg, 4, fun c _ => _cp c c.D)
  | 0xBB => some (.noArg, 4, fun c _ => _cp c c.E)
  | 0xBC => some (.noArg, 4, fun c _ => _cp c c.H)
  | 0xBD => some (.noArg, 4, fun c _ => _cp c c.L)
  | 0xBE => some (.noArg, 8, fun c _ => _cp c (c.ram (getReg c .HL)))
  | 0xBF => some (.noArg, 4, fun c _ => _cp c c.A)
  | 0xE6 => some (.immB, 8, fun c p => opE6 c p.toNat)
  | 0xEE => some (.immB, 8, fun c p => opEE c p.toNat)
  | 0xF6 => some (.immB, 8, fun c p => opF6 c p.toNat)
  | 0xFE => some (.immB, 8, fun c p => _cp c p.toNat)
  -- stack and jumps
  | 0xF5 => some (.noArg, 16, fun c _ => _push16 c .AF)
  | 0xC5 => some (.noArg, 16, fun c _ => _push16 c .BC)
  | 0xD5 => some (.noArg, 16, fun c _ => _push16 c .DE)
  | 0xE5 => some (.noArg, 16, fun c _ => _push16 c .HL)
  | 0xF1 => some (.noArg, 12, fun c _ => _pop16 c .AF)
  | 0xC1 => some (.noArg, 12, fun c _ => _pop16 c .BC)
  | 0xD1 => some (.noArg, 12, fun c _ => _pop16 c .DE)
  | 0xE1 => some (.noArg, 12, fun c _ => _pop16 c .HL)
  | 0xC3 => some (.immH, 12, fun c p => opC3 c p.toNat)
  | 0xE9 => some (.noArg, 4, fun c _ => opE9 c)
  | _ => none

/-- Result of one `CPU.tick` (src/cpu.py 228-286).  `busFault` is the
`Exception("PC reached IO ports ...")` raise; `fetchFault` is the Python
`IndexError` raised when `src[i]` indexes past the end of the 256-byte boot
list; `notModelled` marks an opcode the source implements (or deliberately
raises `OpNotImplemented` on) but this embedding does not transcribe. -/
inductive TickResult where
  | ok (c : CPU) (cycles : Nat)
  | busFault
  | fetchFault
  | notModelled

/-- The fetch source of `tick` (src/cpu.py 229-234, 239, 262, 274): while
`ram[0xFF50] == 0` every fetch indexes the boot list `BOOT` — for EVERY
address, with no range check — otherwise it indexes `ram`.  (In `tick`, ram
indices stay below 0x10000, so the ram side never faults.) -/
def srcByte (c : CPU) (i : Nat) : Option Nat :=
  if c.ram 0xFF50 = 0 then BOOT.get? i else some (c.ram i)

/-- `CPU.tick` (src/cpu.py 228-286): pick the fetch source, fault when
`PC >= 0xFF00`, special-case NOP, dispatch CB-prefixed opcodes against the
extended table, otherwise decode the operand per the table's width tag,
advance PC past the operands and run the handler.  (The disabled
`_nopslide > 0xFF and False` guard can never raise and is not modeled;
`debug_str` is display-only.) -/
def tick (c : CPU) : TickResult :=
  if c.PC ≥ 0xFF00 then .busFault else
  match srcByte c c.PC with
  | none => .fetchFault
  | some ins =>
    if ins = 0x00 then
      .ok { c with nopslide := c.nopslide + 1, PC := c.PC + 1 } 4
    else
      let c0 := { c with nopslide := 0 }
      if ins = 0xCB then
        match srcByte c0 (c0.PC + 1) with
        | none => .fetchFault
        | some ins2 => .ok (cbExec { c0 with PC := c0.PC + 2 } ins2) 8
      else
        match primTab ins with
        | none => .notModelled
        | some (k, cyc, f) =>
          match k with
          | .noArg => .ok (f { c0 with PC := c0.PC + 1 } 0) cyc
          | .immB =>
            match srcByte c0 (c0.PC + 1) with
            | none => .fetchFault
            | some p => .ok (f { c0 with PC := c0.PC + 2 } (p : Int)) cyc
          | .immSB =>
            match srcByte c0 (c0.PC + 1) with
            | none => .fetchFault
            | some p0 =>
              let p : Int := if p0 > 128 then (p0 : Int) - 256 else (p0 : Int)
              .ok (f { c0 with PC := c0.PC + 2 } p) cyc
          | .immH =>
            match srcByte c0 (c0.PC + 1), srcByte c0 (c0.PC + 2) with
            | some lo, some hi =>
              .ok (f { c0 with PC := c0.PC + 3 } ((lo ||| hi <<< 8 : Nat) : Int)) cyc
            | _, _ => .fetchFault

/-- Run one tick and keep only a successful CPU state (used to chain
concrete executions). -/
def tickOk (c : CPU) : Option CPU :=
  match tick c with
  | .ok c1 _ => some c1
  | _ => none

/-- Concrete memory images for test states: association-list lookup with
default 0 for all unlisted cells. -/
def ramOf (l : List (Nat × Nat)) : Nat → Nat :=
  fun a => (((l.find? fun p => p.1 == a).map fun p => p.2).getD 0)

/-! ### Helper lemmas -/

/-- Packing two bytes: `hi <<< 8 ||| lo` is `hi * 256 + lo` when `lo < 256`. -/
theorem lor256 (a b : Nat) (hb : b < 256) : a <<< 8 ||| b = a * 256 + b := by
  apply Nat.eq_of_testBit_eq
  intro i
  have hb2 : b < 2 ^ 8 := hb
  rw [Nat.testBit_lor, Nat.testBit_shiftLeft]
  rw [show a * 256 + b = 2 ^ 8 * a + b by ring]
  rw [Nat.testBit_mul_pow_two_add a hb2 i]
  by_cases h : i < 8
  · simp [h, Nat.not_le.mpr h]
  · simp [h, Nat.le_of_not_lt h,
      Nat.testBit_lt_two_pow
        (Nat.lt_of_lt_of_le hb2 (Nat.pow_le_pow_right (by norm_num) (Nat.le_of_not_lt h)))]

theorem pyIdx_natCast (a : Nat) (h : a < 65536) : pyIdx (a : Int) = a := by
  unfold pyIdx
  omega

theorem pyIdx_sub_one_ne (s : Int) : pyIdx (s - 1) ≠ pyIdx s := by
  unfold pyIdx
  omega

theorem ramSet_get_self (c : CPU) (i : Int) (v : Nat) :
    (ramSet c i v).ram (pyIdx i) = v := by
  simp [ramSet]

theorem ramSet_get_other (c : CPU) (i j : Int) (v : Nat) (h : pyIdx j ≠ pyIdx i) :
    (ramSet c i v).ram (pyIdx j) = c.ram (pyIdx j) := by
  simp [ramSet, h]

theorem push_SP (c : CPU) (r : Reg) : (_push16 c r).SP = c.SP - 2 := by
  simp [_push16, ramSet]

theorem push_ram_hi (c : CPU) (r : Reg) :
    (_push16 c r).ram (pyIdx (c.SP - 1)) = getReg c r / 256 % 256 := by
  simp [_push16, ramSet, pyIdx_sub_one_ne c.SP]

theorem push_ram_lo (c : CPU) (r : Reg) :
    (_push16 c r).ram (pyIdx c.SP) = getReg c r % 256 := by
  simp [_push16, ramSet]

theorem pop_of_push_val (c : CPU) (r : Reg) (v : Nat) (hv : getReg c r = v)
    (h16 : v ≤ 65535) :
    ramGet (_push16 c r) ((_push16 c r).SP + 1) <<< 8 |||
      ramGet (_push16 c r) ((_push16 c r).SP + 2) = v := by
  rw [push_SP]
  rw [show c.SP - 2 + 1 = c.SP - 1 by ring, show c.SP - 2 + 2 = c.SP by ring]
  unfold ramGet
  rw [push_ram_hi, push_ram_lo, hv]
  rw [lor256 _ _ (by omega)]
  omega

/-- Claim C4: for every v in [0, 65535] and every register pair R in
AF/BC/DE/HL holding v, `_push16` immediately followed by `_pop16` leaves R
equal to v and SP equal to its value before the push.  (The two stack
routines are asymmetric — see the C3 analysis — but their displacements
cancel, so the round trip restores both R and SP.) -/
theorem C4_push_pop_roundtrip (c : CPU) (r : Reg) (v : Nat)
    (hr : r = Reg.AF ∨ r = Reg.BC ∨ r = Reg.DE ∨ r = Reg.HL)
    (hv : getReg c r = v) (h16 : v ≤ 65535) :
    getReg (_pop16 (_push16 c r) r) r = v ∧ (_pop16 (_push16 c r) r).SP = c.SP := by
  have hval := pop_of_push_val c r v hv h16
  have hw : (((v : Nat) : Int) % 65536).toNat = v := by omega
  rcases hr with h | h | h | h <;> subst h
  · -- AF
    have hv16 : v % 16 = 0 := by
      have hfb : flagsByte c % 16 = 0 := by
        unfold flagsByte
        cases c.FLAG_Z <;> cases c.FLAG_N <;> cases c.FLAG_H <;> cases c.FLAG_C <;> rfl
      simp only [getReg] at hv
      omega
    constructor
    · simp only [_pop16]
      rw [hval]
      simp only [getReg, setReg, flagsByte]
      rw [hw]
      simp only [Bool.cond_decide]
      split_ifs <;> omega
    · simp only [_pop16, setReg]
      rw [push_SP]
      ring
  · -- BC
    constructor
    · simp only [_pop16]
      rw [hval]
      simp only [getReg, setReg]
      rw [hw]
      rw [lor256 _ _ (by omega)]
      omega
    · simp only [_pop16, setReg]
      rw [push_SP]
      ring
  · -- DE
    constructor
    · simp only [_pop16]
      rw [hval]
      simp only [getReg, setReg]
      rw [hw]
      rw [lor256 _ _ (by omega)]
      omega
    · simp only [_pop16, setReg]
      rw [push_SP]
      ring
  · -- HL
    constructor
    · simp only [_pop16]
      rw [hval]
      simp only [getReg, setReg]
      rw [hw]
      rw [lor256 _ _ (by omega)]
      omega
    · simp only [_pop16, setReg]
      rw [push_SP]
      ring

/-! ### Concrete test states -/

def c1state : CPU := { ram := fun _ => 0, A := 0x10 }

def c3state : CPU := { ram := fun _ => 0, B := 0x12, C := 0x34, SP := 0xFFFE }

def c3popstate : CPU := { ram := ramOf [(0xFFFC, 0x34), (0xFFFD, 0x12)], SP := 0xFFFC }

def c4wit : CPU := { ram := fun _ => 0, B := 0x12, C := 0x34, SP := 0xFFFE }

def c5state : CPU := { ram := fun _ => 0, A := 0x42 }

def c5wit : CPU := { ram := fun _ => 0, A := 0x42, B := 0x07, H := 0x10, L := 0x00 }

def c6state : CPU := { ram := fun _ => 0, A := 0x80 }

def c8state : CPU := { ram := ramOf [(0xC000, 0x55)], H := 0xC0, L := 0x00 }

def c9state : CPU := { ram := ramOf [(0x10, 0x0F)], A := 0xF0 }

/-- Start state for the C2 scenario: PC at the boot image's final
`LDH [0x50],A` (offset 0xFE), A = 1; the "cartridge" program at 0x100 is
`LD A,0x00; JP 0x0050`, and the bytes at 0x0050 are `LDH [0x50],A` followed
by the marker ROM byte 0x47 at 0x0052. -/
def c2state : CPU :=
  { ram := ramOf [(0x100, 0x3E), (0x101, 0x00), (0x102, 0xC3), (0x103, 0x50),
                  (0x104, 0x00), (0x50, 0xE0), (0x51, 0x50), (0x52, 0x47)],
    A := 0x01, PC := 0xFE }

def c2run : Option CPU := (((tickOk c2state).bind tickOk).bind tickOk).bind tickOk

def c2wit : CPU := { ram := ramOf [(0xFF50, 0x01), (0x50, 0x47)] }

/-- Start state for the C7 scenario: overlay disabled, A = 0xAB, and the
bytes `0x21 0x00 0xC0 0x77` at PC = 0x100. -/
def c7state : CPU :=
  { ram := ramOf [(0x100, 0x21), (0x101, 0x00), (0x102, 0xC0), (0x103, 0x77),
                  (0xFF50, 0x01)],
    A := 0xAB, PC := 0x100 }

def c7run : Option CPU := (tickOk c7state).bind tickOk

def c10wit : CPU := { ram := fun _ => 0, PC := 0x100 }

/-! ### Claim theorems -/

/-- Claim C1: the spec says BIT b,r sets Z to the NEGATION of bit b (so with
A=0x10, BIT 4,A gives Z=0 and BIT 3,A gives Z=1).  The code stores the bit
itself: with A=0x10, `BIT 4,A` (CB 0x67) leaves FLAG_Z = true and `BIT 3,A`
(CB 0x5F) leaves FLAG_Z = false — inverted relative to the claim.  N=0, H=1
and C untouched do hold. -/
theorem C1_bit_flag_eval :
    (cbExec c1state 0x67).FLAG_Z = true ∧
    (cbExec c1state 0x5F).FLAG_Z = false ∧
    (cbExec c1state 0x67).FLAG_N = false ∧
    (cbExec c1state 0x67).FLAG_H = true ∧
    (cbExec c1state 0x67).FLAG_C = c1state.FLAG_C ∧
    (cbExec c1state 0x5F).FLAG_C = c1state.FLAG_C := by
  decide

/-- Claim C2, counterexample: an instruction (the boot hand-off itself)
writes the nonzero value 1 to 0xFF50, yet after a later instruction writes 0
back, the overlay is active again: the next instruction fetch, of address
0x0052 (inside 0x0000-0x00FF), returns the boot byte 0x00 and not the
cartridge ROM byte 0x47 sitting in ram.  This refutes both "every subsequent
fetch returns the ROM byte" and "no later write re-enables the overlay". -/
theorem C2_overlay_reenable_counterexample :
    ((tickOk c2state).map fun c1 => c1.ram 0xFF50) = some 0x01 ∧
    (c2run.map fun c4 => (c4.PC, c4.ram 0xFF50, srcByte c4 c4.PC, c4.ram c4.PC)) =
      some (0x52, 0x00, some 0x00, 0x47) ∧
    (c2run.map fun c4 => srcByte c4 c4.PC) ≠ some (some 0x47) := by
  decide

/-- Claim C2, amended: writing a nonzero value to 0xFF50 disables the boot
overlay only while the byte at 0xFF50 remains nonzero — `tick` re-reads
0xFF50 on every fetch, so whenever it is nonzero every fetch comes from ram
(which holds the cartridge ROM copy), and an instruction that writes 0 back
re-enables the overlay. -/
theorem C2_overlay_gated (c : CPU) (i : Nat) (h : c.ram 0xFF50 ≠ 0) :
    srcByte c i = some (c.ram i) := by
  simp [srcByte, h]

theorem C2_overlay_gated_witness : srcByte c2wit 0x50 = some (c2wit.ram 0x50) :=
  C2_overlay_gated c2wit 0x50 (by decide)

/-- Claim C3: the spec's stack discipline puts the low byte at the NEW SP and
has POP read from SP and SP+1.  The code instead leaves the low byte at the
OLD SP (= new SP + 2) — with SP=0xFFFE and BC=0x1234, after `_push16` the
cell 0xFFFC (the new SP) still holds 0, the low byte 0x34 being at 0xFFFE —
and `_pop16` reads from SP+1 and SP+2: from the claim's layout (0x34 at SP,
0x12 at SP+1, SP=0xFFFC) it returns 0x1200, not 0x1234. -/
theorem C3_stack_layout_eval :
    ((_push16 c3state .BC).ram 0xFFFD = 0x12 ∧
     (_push16 c3state .BC).ram 0xFFFE = 0x34 ∧
     (_push16 c3state .BC).ram 0xFFFC = 0x00 ∧
     (_push16 c3state .BC).SP = 0xFFFC) ∧
    (getReg (_pop16 c3popstate .BC) .BC = 0x1200 ∧
     getReg (_pop16 c3popstate .BC) .BC ≠ 0x1234 ∧
     (_pop16 c3popstate .BC).SP = 0xFFFE) := by
  decide

theorem C4_push_pop_roundtrip_witness :
    getReg (_pop16 (_push16 c4wit .BC) .BC) .BC = 0x1234 ∧
    (_pop16 (_push16 c4wit .BC) .BC).SP = c4wit.SP :=
  C4_push_pop_roundtrip c4wit .BC 0x1234 (Or.inr (Or.inl rfl)) (by decide) (by decide)

/-- Claim C5, counterexample: a store to the ROM region is NOT ignored —
`LD [nn],A` at addr 0x1000 with A=0x42 changes the byte at 0x1000 from 0 to
0x42. -/
theorem C5_rom_write_counterexample :
    (_ld_a_to_mem c5state 0x1000).ram 0x1000 = 0x42 ∧
    (_ld_a_to_mem c5state 0x1000).ram 0x1000 ≠ c5state.ram 0x1000 := by
  decide

/-- Claim C5, amended: writes to 0x0000-0x7FFF take effect like any other
write — there is no write-protection logic anywhere in the bus: after
`LD [nn],A`, `LD [HL],n` or `LD [HL],B` targeting `addr`, the byte at `addr`
equals the stored value. -/
theorem C5_rom_write_applied (c : CPU) (addr n : Nat)
    (ha : addr ≤ 0x7FFF) (hHL : getReg c .HL = addr) :
    (_ld_a_to_mem c addr).ram addr = c.A ∧
    (op36 c n).ram addr = n ∧
    (_ld_reg_from_reg c .MEM_AT_HL .B).ram addr = c.B := by
  have hp : pyIdx (addr : Int) = addr := pyIdx_natCast addr (by omega)
  refine ⟨?_, ?_, ?_⟩
  · simp [_ld_a_to_mem, ramSet, hp]
  · simp [op36, ramSet, hHL, hp]
  · have hHL2 : c.H <<< 8 ||| c.L = addr := hHL
    simp [_ld_reg_from_reg, setReg, getReg, ramSet, hHL2, hp]

theorem C5_rom_write_applied_witness :
    (_ld_a_to_mem c5wit 0x1000).ram 0x1000 = c5wit.A ∧
    (op36 c5wit 0x99).ram 0x1000 = 0x99 ∧
    (_ld_reg_from_reg c5wit .MEM_AT_HL .B).ram 0x1000 = c5wit.B :=
  C5_rom_write_applied c5wit 0x1000 0x99 (by decide) (by decide)

/-- Claim C6: the spec's range invariant fails — `_sla` stores the shifted
value without masking, so `SLA A` (CB 0x27) with A=0x80 leaves A = 0x100,
outside [0, 255] (the very condition the CPU's own `__str__` check calls
"Register value out of range"). -/
theorem C6_sla_overflow_eval :
    (cbExec c6state 0x27).A = 0x100 ∧ ¬ (cbExec c6state 0x27).A ≤ 0xFF := by
  decide

/-- Claim C7: the spec scenario expects ram[0xC000] = A = 0xAB, but opcode
0x77 copies register L: running `LD HL,0xC000; LD [HL],A` from PC=0x100 with
A=0xAB leaves ram[0xC000] = L = 0x00 (HL does equal 0xC000, and A is
untouched). -/
theorem C7_ld_hl_a_eval :
    (c7run.map fun c2 => (c2.ram 0xC000, getReg c2 .HL, c2.A)) =
      some (0x00, 0xC000, 0xAB) ∧
    (c7run.map fun c2 => c2.ram 0xC000) ≠ some 0xAB := by
  decide

/-- Claim C8: `JP [HL]` should set PC to HL itself (0xC000), but the code
sets PC to the byte stored at HL: with HL=0xC000 and ram[0xC000]=0x55, after
`opE9` PC is 0x55, not 0xC000. -/
theorem C8_jp_hl_eval :
    (opE9 c8state).PC = 0x55 ∧ (opE9 c8state).PC ≠ 0xC000 := by
  decide

/-- Claim C9: AND/OR/XOR with an 8-bit immediate should combine A with the
immediate n itself; the code combines A with ram[n].  With A=0xF0, n=0x10 and
ram[0x10]=0x0F: AND gives 0x00 (claim: 0xF0 AND 0x10 = 0x10), OR gives 0xFF
(claim: 0xF0), XOR gives 0xFF (claim: 0xE0). -/
theorem C9_logic_imm_eval :
    ((opE6 c9state 0x10).A = 0x00 ∧ (opE6 c9state 0x10).A ≠ c9state.A &&& 0x10) ∧
    ((opF6 c9state 0x10).A = 0xFF ∧ (opF6 c9state 0x10).A ≠ c9state.A ||| 0x10) ∧
    ((opEE c9state 0x10).A = 0xFF ∧ (opEE c9state 0x10).A ≠ c9state.A ^^^ 0x10) := by
  decide

/-- Claim C10: while the overlay is active (`ram[0xFF50] = 0`), `tick`
fetches every byte from the 256-entry boot list regardless of PC — so any
fetch with 0x100 ≤ PC < 0xFF00 indexes past the end of the boot buffer and
faults (Python `IndexError`) instead of reading cartridge ROM. -/
theorem C10_overlay_fetch_fault (c : CPU) (hov : c.ram 0xFF50 = 0)
    (hlo : 0x100 ≤ c.PC) (hhi : c.PC < 0xFF00) :
    tick c = TickResult.fetchFault ∧ ∀ i, srcByte c i = BOOT.get? i := by
  have hfetch : srcByte c c.PC = none := by
    simp only [srcByte, hov, if_pos]
    apply List.get?_eq_none.mpr
    rw [BOOT_length]
    omega
  constructor
  · unfold tick
    rw [if_neg (by omega), hfetch]
  · intro i
    simp [srcByte, hov]

theorem C10_overlay_fetch_fault_witness :
    tick c10wit = TickResult.fetchFault ∧ ∀ i, srcByte c10wit i = BOOT.get? i :=
  C10_overlay_fetch_fault c10wit rfl (by decide) (by decide)

end PyGB
